import Mathlib

/-
  Shallow embedding of the core of `src/api-python/tel.py`
  (Brazilian phone-number validation, classification, carrier
  resolution, and a TTL-bounded lookup cache).

  Conventions of the embedding:
  * Python strings are Lean `String`s; digit means the ASCII digits
    `'0'`-`'9'` (`Char.isDigit`), matching the characters relevant to
    every claim.
  * `time.time()` timestamps are `Int` seconds; `consulta_ts` is the
    stored integer timestamp.
  * The cache directory (one JSON file per MD5 key) is a list of
    `(key, record)` pairs with at most one entry per key; writing a
    file is modelled by erase-then-cons, reading by association lookup.
  * Network enrichment (`consulta_api_portabilidade`) is a parameter
    of `lookup`: `none` models any failure/timeout, `some a` a
    successful response.
  * Fallible Python code that returns `None` is `Option`.
-/

namespace Tel

/-! ### Bytes and MD5 (hashlib.md5(...).hexdigest() used by CacheManager.get_key) -/

/-- UTF-8 encoding of one character, as byte values (`str.encode()`). -/
def charUtf8 (c : Char) : List Nat :=
  let n := c.toNat
  if n < 128 then [n]
  else if n < 2048 then [192 + n / 64, 128 + n % 64]
  else if n < 65536 then [224 + n / 4096, 128 + (n / 64) % 64, 128 + n % 64]
  else [240 + n / 262144, 128 + (n / 4096) % 64, 128 + (n / 64) % 64, 128 + n % 64]

/-- UTF-8 bytes of a string (`phone.encode()`). -/
def utf8Bytes (s : String) : List Nat := (s.toList.map charUtf8).flatten

def mask32 : Nat := 0xFFFFFFFF

def not32 (x : Nat) : Nat := x ^^^ mask32

def rotl32 (x n : Nat) : Nat := ((x <<< n) ||| (x >>> (32 - n))) &&& mask32

/-- The 64 MD5 sine-derived constants (RFC 1321). -/
def md5K : List Nat :=
  [0xd76aa478, 0xe8c7b756, 0x242070db, 0xc1bdceee,
   0xf57c0faf, 0x4787c62a, 0xa8304613, 0xfd469501,
   0x698098d8, 0x8b44f7af, 0xffff5bb1, 0x895cd7be,
   0x6b901122, 0xfd987193, 0xa679438e, 0x49b40821,
   0xf61e2562, 0xc040b340, 0x265e5a51, 0xe9b6c7aa,
   0xd62f105d, 0x02441453, 0xd8a1e681, 0xe7d3fbc8,
   0x21e1cde6, 0xc33707d6, 0xf4d50d87, 0x455a14ed,
   0xa9e3e905, 0xfcefa3f8, 0x676f02d9, 0x8d2a4c8a,
   0xfffa3942, 0x8771f681, 0x6d9d6122, 0xfde5380c,
   0xa4beea44, 0x4bdecfa9, 0xf6bb4b60, 0xbebfbc70,
   0x289b7ec6, 0xeaa127fa, 0xd4ef3085, 0x04881d05,
   0xd9d4d039, 0xe6db99e5, 0x1fa27cf8, 0xc4ac5665,
   0xf4292244, 0x432aff97, 0xab9423a7, 0xfc93a039,
   0x655b59c3, 0x8f0ccc92, 0xffeff47d, 0x85845dd1,
   0x6fa87e4f, 0xfe2ce6e0, 0xa3014314, 0x4e0811a1,
   0xf7537e82, 0xbd3af235, 0x2ad7d2bb, 0xeb86d391]

/-- The 64 per-round left-rotation amounts (RFC 1321). -/
def md5S : List Nat :=
  [7, 12, 17, 22, 7, 12, 17, 22, 7, 12, 17, 22, 7, 12, 17, 22,
   5, 9, 14, 20, 5, 9, 14, 20, 5, 9, 14, 20, 5, 9, 14, 20,
   4, 11, 16, 23, 4, 11, 16, 23, 4, 11, 16, 23, 4, 11, 16, 23,
   6, 10, 15, 21, 6, 10, 15, 21, 6, 10, 15, 21, 6, 10, 15, 21]

/-- One MD5 round on state `(a, b, c, d)` with message words `M`. -/
def md5Round (M : List Nat) (st : Nat × Nat × Nat × Nat) (i : Nat) :
    Nat × Nat × Nat × Nat :=
  let a := st.1
  let b := st.2.1
  let c := st.2.2.1
  let d := st.2.2.2
  let fg : Nat × Nat :=
    if i < 16 then ((b &&& c) ||| (not32 b &&& d), i)
    else if i < 32 then ((d &&& b) ||| (not32 d &&& c), (5 * i + 1) % 16)
    else if i < 48 then (b ^^^ c ^^^ d, (3 * i + 5) % 16)
    else (c ^^^ (b ||| not32 d), (7 * i) % 16)
  let f := (fg.1 + a + md5K.getD i 0 + M.getD fg.2 0) &&& mask32
  (d, (b + rotl32 f (md5S.getD i 0)) &&& mask32, b, c)

/-- One 512-bit MD5 block: 64 rounds, then add into the running state. -/
def md5Block (st : Nat × Nat × Nat × Nat) (M : List Nat) : Nat × Nat × Nat × Nat :=
  let r := (List.range 64).foldl (md5Round M) st
  ((st.1 + r.1) &&& mask32, (st.2.1 + r.2.1) &&& mask32,
   (st.2.2.1 + r.2.2.1) &&& mask32, (st.2.2.2 + r.2.2.2) &&& mask32)

/-- `k` little-endian bytes of `n`. -/
def leBytes (n k : Nat) : List Nat := (List.range k).map fun j => (n >>> (8 * j)) &&& 0xFF

/-- MD5 padding: `0x80`, zeros to 56 mod 64, then the 64-bit LE bit length. -/
def md5Pad (msg : List Nat) : List Nat :=
  msg ++ [0x80] ++ List.replicate ((119 - msg.length % 64) % 64) 0
      ++ leBytes ((8 * msg.length) % 2 ^ 64) 8

/-- 4-byte little-endian words of a byte list. -/
def toWords (bytes : List Nat) : List Nat :=
  (List.range (bytes.length / 4)).map fun i =>
    bytes.getD (4 * i) 0 ||| (bytes.getD (4 * i + 1) 0 <<< 8)
      ||| (bytes.getD (4 * i + 2) 0 <<< 16) ||| (bytes.getD (4 * i + 3) 0 <<< 24)

/-- MD5 of a byte list, as the final `(A, B, C, D)` state. -/
def md5Core (bytes : List Nat) : Nat × Nat × Nat × Nat :=
  let padded := md5Pad bytes
  (List.range (padded.length / 64)).foldl
    (fun st bi => md5Block st (toWords ((padded.drop (64 * bi)).take 64)))
    (0x67452301, 0xefcdab89, 0x98badcfe, 0x10325476)

/-- Lower-case hex character for a value below 16. -/
def hexChar (n : Nat) : Char := if n < 10 then Char.ofNat (48 + n) else Char.ofNat (87 + n)

def byteHex (b : Nat) : List Char := [hexChar (b / 16), hexChar (b % 16)]

/-- `hashlib.md5(s.encode()).hexdigest()`. -/
def md5Hex (s : String) : String :=
  let r := md5Core (utf8Bytes s)
  String.mk (((leBytes r.1 4 ++ leBytes r.2.1 4 ++ leBytes r.2.2.1 4 ++ leBytes r.2.2.2 4).map
    byteHex).flatten)

/-! ### PhoneValidator (tel.py lines 56-115) -/

/-- `re.sub(r'\D', '', phone)`: keep only digit characters. -/
def stripNonDigits (phone : String) : List Char := phone.toList.filter Char.isDigit

/-- Trunk-digit removal step of `normalize`: drop a leading `'0'` when
exactly 11 digits remain. -/
def trunkStrip (ds : List Char) : List Char :=
  if ds.length = 11 ∧ ds.head? = some '0' then ds.tail else ds

/-- Length gate of `normalize`: succeed only at length 10 or 11. -/
def pickRange (ds : List Char) : Option (List Char) :=
  if 10 ≤ ds.length ∧ ds.length ≤ 11 then some ds else none

/-- `PhoneValidator.normalize`, working on the character list:
strip non-digits, drop a leading `'0'` when exactly 11 digits remain,
succeed only at length 10 or 11. -/
def normalizeL (phone : String) : Option (List Char) :=
  pickRange (trunkStrip (stripNonDigits phone))

/-- `PhoneValidator.normalize` (string-valued, as in the source). -/
def normalize (phone : String) : Option String := (normalizeL phone).map String.mk

/-- The character class `[2-5]` of the landline patterns. -/
def isTwoToFive (c : Char) : Bool := c = '2' || c = '3' || c = '4' || c = '5'

/-- `re.match(r'^(\d{2})(9\d{4})(\d{4})$', ds)`: the three captured groups,
or `none` when the pattern does not match. -/
def matchMobile (ds : List Char) : Option (List Char × List Char × List Char) :=
  if ds.length = 11 ∧ ds.all Char.isDigit = true ∧ ds[2]? = some '9' then
    some (ds.take 2, (ds.drop 2).take 5, ds.drop 7)
  else none

/-- `re.match(r'^(\d{2})([2-5]\d{3})(\d{4})$', ds)`: matches only
10-character digit strings whose third character is in `[2-5]`. -/
def matchLandline (ds : List Char) : Option (List Char × List Char × List Char) :=
  if ds.length = 10 ∧ ds.all Char.isDigit = true ∧ ds[2]?.any isTwoToFive = true then
    some (ds.take 2, (ds.drop 2).take 4, ds.drop 6)
  else none

/-- `re.match(r'^(\d{2})([2-5]\d{2})(\d{4})$', ds)`: matches only
9-character digit strings whose third character is in `[2-5]`. -/
def matchShort (ds : List Char) : Option (List Char × List Char × List Char) :=
  if ds.length = 9 ∧ ds.all Char.isDigit = true ∧ ds[2]?.any isTwoToFive = true then
    some (ds.take 2, (ds.drop 2).take 3, ds.drop 5)
  else none

/-- The parts dictionary returned by `PhoneValidator.validate`;
`raw_prefixo` is present (`some`) only for mobile numbers. -/
structure Partes where
  ddd : String
  prefixo : String
  sufixo : String
  raw_prefixo : Option String
deriving Repr, DecidableEq

/-- `PhoneValidator.validate`: normalize, then try the pattern selected by
length and the digit at index 2; the `elif` chain never falls through from
one pattern to another. -/
def validate (phone : String) : Bool × String × Option Partes :=
  match normalizeL phone with
  | none => (false, "Formato inválido", none)
  | some ds =>
    if ds.length = 11 ∧ ds[2]? = some '9' then
      match matchMobile ds with
      | some (g1, g2, g3) =>
        (true, "MÓVEL",
         some ⟨String.mk g1, String.mk (g2.drop 1), String.mk g3, some (String.mk g2)⟩)
      | none => (false, "Formato não reconhecido", none)
    else if ds.length = 11 then
      match matchLandline ds with
      | some (g1, g2, g3) =>
        (true, "FIXO", some ⟨String.mk g1, String.mk g2, String.mk g3, none⟩)
      | none => (false, "Formato não reconhecido", none)
    else if ds.length = 10 then
      match matchShort ds with
      | some (g1, g2, g3) =>
        (true, "FIXO", some ⟨String.mk g1, String.mk g2, String.mk g3, none⟩)
      | none => (false, "Formato não reconhecido", none)
    else (false, "Formato não reconhecido", none)

/-! ### PhoneInfo (tel.py lines 32-47) -/

/-- The `PhoneInfo` dataclass with its field defaults. -/
structure PhoneInfo where
  numero : String
  ddd : String
  prefixo : String
  sufixo : String
  operadora : String := "Desconhecida"
  cidade : String := "Desconhecida"
  uf : String := "??"
  tipo : String := "Desconhecido"
  latitude : Option Float := none
  longitude : Option Float := none
  consulta_ts : Int := 0
  valido : Bool := false
  portabilidade : Bool := false
deriving Repr

/-! ### CacheManager (tel.py lines 117-156) -/

def CACHE_TTL : Int := 86400

/-- `CacheManager.get_key`: MD5 hex digest of the phone string as passed. -/
def get_key (phone : String) : String := md5Hex phone

/-- The cache directory: one stored record per key (file `<key>.json`). -/
abbrev Cache : Type := List (String × PhoneInfo)

/-- Association lookup by key (does the file `<key>.json` exist, and
with which contents). -/
def cacheFind : Cache → String → Option PhoneInfo
  | [], _ => none
  | (k, v) :: rest, key => if k = key then some v else cacheFind rest key

/-- Removing the file of a key (`cache_file.unlink()`). -/
def cacheErase (c : Cache) (key : String) : Cache :=
  (c : List (String × PhoneInfo)).filter fun e => e.1 != key

/-- `CacheManager.load`: miss when the file is absent; when present and
older than `CACHE_TTL` seconds the file is deleted and the load is a miss;
otherwise a hit returning the stored record.  Returns the loaded value and
the cache state after the call. -/
def cacheLoad (c : Cache) (now : Int) (phone : String) : Option PhoneInfo × Cache :=
  match cacheFind c (get_key phone) with
  | none => (none, c)
  | some data =>
    if now - data.consulta_ts > CACHE_TTL then (none, cacheErase c (get_key phone))
    else (some data, c)

/-- `CacheManager.save`: write (overwrite) the record under the key of
`phone`. -/
def cacheSave (c : Cache) (phone : String) (data : PhoneInfo) : Cache :=
  (get_key phone, data) :: cacheErase c (get_key phone)

/-! ### PhoneLookup static tables (tel.py lines 162-243) -/

/-- First-match association lookup (Python `dict` access; dicts preserve
insertion order). -/
def assoc {β : Type} (k : String) : List (String × β) → Option β
  | [] => none
  | (k2, v) :: rest => if k = k2 then some v else assoc k rest

/-- `PhoneLookup.DDD_DATABASE`: area code to `(estado, regiao)`. -/
def DDD_DATABASE : List (String × String × String) :=
  [("11", "SP", "São Paulo/SP"), ("12", "SP", "São José dos Campos/SP"),
   ("13", "SP", "Santos/SP"), ("14", "SP", "Bauru/SP"), ("15", "SP", "Sorocaba/SP"),
   ("16", "SP", "Ribeirão Preto/SP"), ("17", "SP", "São José do Rio Preto/SP"),
   ("18", "SP", "Presidente Prudente/SP"), ("19", "SP", "Campinas/SP"),
   ("21", "RJ", "Rio de Janeiro/RJ"), ("22", "RJ", "Campos dos Goytacazes/RJ"),
   ("24", "RJ", "Volta Redonda/RJ"), ("27", "ES", "Vitória/ES"),
   ("28", "ES", "Cachoeiro de Itapemirim/ES"), ("31", "MG", "Belo Horizonte/MG"),
   ("32", "MG", "Juiz de Fora/MG"), ("33", "MG", "Governador Valadares/MG"),
   ("34", "MG", "Uberlândia/MG"), ("35", "MG", "Poços de Caldas/MG"),
   ("37", "MG", "Divinópolis/MG"), ("38", "MG", "Montes Claros/MG"),
   ("41", "PR", "Curitiba/PR"), ("42", "PR", "Ponta Grossa/PR"),
   ("43", "PR", "Londrina/PR"), ("44", "PR", "Maringá/PR"),
   ("45", "PR", "Foz do Iguaçu/PR"), ("46", "PR", "Francisco Beltrão/PR"),
   ("47", "SC", "Joinville/SC"), ("48", "SC", "Florianópolis/SC"),
   ("49", "SC", "Chapecó/SC"), ("51", "RS", "Porto Alegre/RS"),
   ("53", "RS", "Pelotas/RS"), ("54", "RS", "Caxias do Sul/RS"),
   ("55", "RS", "Santa Maria/RS"), ("61", "DF", "Brasília/DF"),
   ("62", "GO", "Goiânia/GO"), ("63", "TO", "Palmas/TO"),
   ("64", "GO", "Rio Verde/GO"), ("65", "MT", "Cuiabá/MT"),
   ("66", "MT", "Rondonópolis/MT"), ("67", "MS", "Campo Grande/MS"),
   ("68", "AC", "Rio Branco/AC"), ("69", "RO", "Porto Velho/RO"),
   ("71", "BA", "Salvador/BA"), ("73", "BA", "Ilhéus/BA"),
   ("74", "BA", "Juazeiro/BA"), ("75", "BA", "Feira de Santana/BA"),
   ("77", "BA", "Barreiras/BA"), ("79", "SE", "Aracaju/SE"),
   ("81", "PE", "Recife/PE"), ("82", "AL", "Maceió/AL"),
   ("83", "PB", "João Pessoa/PB"), ("84", "RN", "Natal/RN"),
   ("85", "CE", "Fortaleza/CE"), ("86", "PI", "Teresina/PI"),
   ("87", "PE", "Petrolina/PE"), ("88", "CE", "Juazeiro do Norte/CE"),
   ("89", "PI", "Picos/PI"), ("91", "PA", "Belém/PA"),
   ("92", "AM", "Manaus/AM"), ("93", "PA", "Santarém/PA"),
   ("94", "PA", "Marabá/PA"), ("95", "RR", "Boa Vista/RR"),
   ("96", "AP", "Macapá/AP"), ("97", "AM", "Coari/AM"),
   ("98", "MA", "São Luís/MA"), ("99", "MA", "Imperatriz/MA")]

/-- `PhoneLookup.OPERATOR_PREFIXES`: area code, then first digit of the raw
mobile prefix, then carriers with their prefix specifications, all in the
source's insertion order. -/
def OPERATOR_PREFIXES : List (String × List (String × List (String × List String))) :=
  [("11",
    [("9", [("VIVO", ["96", "97", "98", "99"]), ("TIM", ["94", "95"]),
            ("CLARO", ["92", "93"]), ("OI", ["91"])]),
     ("3", [("VIVO", ["30-39"]), ("TIM", ["20-29"]), ("CLARO", ["10-19"])])]),
   ("83",
    [("9", [("VIVO", ["96", "97"]), ("TIM", ["94", "95"]),
            ("CLARO", ["92", "93"]), ("OI", ["91"])]),
     ("3", [("VIVO", ["32-35"]), ("TIM", ["21-25"]), ("CLARO", ["11-15"])])])]

/-! ### PhoneLookup.get_operator_by_prefixo (tel.py lines 268-291) -/

/-- One prefix specification test, mirroring the loop body: a spec
containing `'-'` is split as `inicio-fim` and compared against
`int(prefixo[:2])`; otherwise `prefixo.startswith(pref)`.
(Python's `int` raises on a non-numeric slice; that is modelled as a
non-match, and is unreachable for the digit prefixes produced by
`validate`.) -/
def specMatches (prefixo pref : String) : Bool :=
  if pref.toList.contains '-' then
    match pref.splitOn "-" with
    | [s1, s2] =>
      match s1.toInt?, s2.toInt?, (prefixo.take 2).toInt? with
      | some inicio, some fim, some v => decide (inicio ≤ v ∧ v ≤ fim)
      | _, _, _ => false
    | _ => false
  else prefixo.startsWith pref

/-- Inner loop `for pref in prefixos`: first matching spec returns the
carrier. -/
def scanPrefs (operadora : String) (prefs : List String) (prefixo : String) :
    Option String :=
  match prefs with
  | [] => none
  | pref :: rest =>
    if specMatches prefixo pref then some operadora else scanPrefs operadora rest prefixo

/-- Outer loop `for operadora, prefixos in operadores.items()`. -/
def scanOps (ops : List (String × List String)) (prefixo : String) : Option String :=
  match ops with
  | [] => none
  | (op, prefs) :: rest =>
    match scanPrefs op prefs prefixo with
    | some r => some r
    | none => scanOps rest prefixo

/-- `PhoneLookup.get_operator_by_prefix` (renamed with the Portuguese
spelling of its argument). -/
def get_operator_by_prefixo (ddd prefixo tipo : String) : String :=
  match assoc ddd OPERATOR_PREFIXES with
  | none => "Desconhecida"
  | some ddd_data =>
    if tipo = "MÓVEL" then
      match assoc (prefixo.take 1) ddd_data with
      | none => "Desconhecida"
      | some operadores =>
        match scanOps operadores prefixo with
        | some op => op
        | none => "Desconhecida"
    else "Desconhecida"

/-! ### PhoneLookup.lookup (tel.py lines 293-352) -/

/-- A successful `consulta_api_portabilidade` response. -/
structure ApiData where
  operadora : String
  cidade : String
  uf : String
  portabilidade : Bool
deriving Repr

/-- `regiao.split('/')[0]`. -/
def takeUntilSlash (s : String) : String :=
  String.mk (s.toList.takeWhile fun c => c != '/')

/-- `DDD_DATABASE.get(ddd, {"estado": "??", "regiao": "Desconhecida"})`. -/
def dddInfo (ddd : String) : String × String :=
  (assoc ddd DDD_DATABASE).getD ("??", "Desconhecida")

/-- The record composed by `lookup` for a validated number (lines 316-347):
enrichment fields when the API answered, otherwise the static tables. -/
def composeRecord (phone tipo : String) (partes : Partes) (api : Option ApiData)
    (now : Int) : PhoneInfo :=
  let info := dddInfo partes.ddd
  let fields : String × String × String × Bool :=
    match api with
    | some a => (a.operadora, a.cidade, a.uf, a.portabilidade)
    | none =>
      (get_operator_by_prefixo partes.ddd (partes.raw_prefixo.getD partes.prefixo) tipo,
       takeUntilSlash info.2, info.1, false)
  { numero := phone, ddd := partes.ddd, prefixo := partes.prefixo,
    sufixo := partes.sufixo, operadora := fields.1, cidade := fields.2.1,
    uf := fields.2.2.1, tipo := tipo, valido := true,
    portabilidade := fields.2.2.2, consulta_ts := now }

/-- The record returned for an input that fails validation (lines 305-313):
empty structural fields, `tipo = "INVÁLIDO"`, dataclass defaults elsewhere
(in particular `consulta_ts = 0`). -/
def invalidRecord (phone : String) : PhoneInfo :=
  { numero := phone, ddd := "", prefixo := "", sufixo := "",
    valido := false, tipo := "INVÁLIDO" }

/-- `PhoneLookup.lookup` as a state transformer on the cache: the result
record and the cache state after the call.  `now` is the clock and `api`
the outcome of the (single, best-effort) enrichment call.
The `(true, _, none)` arm is dead code: `validate` pairs `true` only with
`some` parts (`validate_true_shape` below). -/
def lookup (phone : String) (c : Cache) (now : Int) (api : Option ApiData) :
    PhoneInfo × Cache :=
  match cacheLoad c now phone with
  | (some cached, c1) => (cached, c1)
  | (none, c1) =>
    match validate phone with
    | (true, tipo, some partes) =>
      let reg := composeRecord phone tipo partes api now
      (reg, cacheSave c1 phone reg)
    | (true, _, none) => (invalidRecord phone, c1)
    | (false, _, _) => (invalidRecord phone, c1)

/-! ### Helper lemmas -/

theorem stripNonDigits_of_all (s : String) (h : s.toList.all Char.isDigit = true) :
    stripNonDigits s = s.toList := by
  unfold stripNonDigits
  exact List.filter_eq_self.mpr (List.all_eq_true.mp h)

theorem stripNonDigits_all (s : String) :
    (stripNonDigits s).all Char.isDigit = true := by
  unfold stripNonDigits
  exact List.all_eq_true.mpr fun a ha => (List.mem_filter.mp ha).2

theorem all_tail {l : List Char} (h : l.all Char.isDigit = true) :
    l.tail.all Char.isDigit = true := by
  cases l with
  | nil => rfl
  | cons a l =>
    simp only [List.all_cons, Bool.and_eq_true] at h
    exact h.2

theorem pickRange_eq_some {l l2 : List Char} :
    pickRange l = some l2 ↔ (10 ≤ l.length ∧ l.length ≤ 11) ∧ l2 = l := by
  unfold pickRange
  split <;> rename_i h
  · constructor
    · intro e
      exact ⟨h, (Option.some.inj e).symm⟩
    · rintro ⟨-, rfl⟩
      rfl
  · simp [h]

theorem trunkStrip_of_pos {l : List Char}
    (h : l.length = 11 ∧ l.head? = some '0') : trunkStrip l = l.tail := by
  unfold trunkStrip; exact if_pos h

theorem trunkStrip_of_neg {l : List Char}
    (h : ¬(l.length = 11 ∧ l.head? = some '0')) : trunkStrip l = l := by
  unfold trunkStrip; exact if_neg h

/-- `validate` returns either an invalid verdict or `true` paired with a
parts dictionary: the `true`-without-parts shape never occurs. -/
theorem validate_shape (p : String) :
    (validate p).1 = false ∨ ∃ tipo partes, validate p = (true, tipo, some partes) := by
  unfold validate
  cases hn : normalizeL p with
  | none => exact Or.inl rfl
  | some ds =>
    dsimp only
    by_cases h1 : ds.length = 11 ∧ ds[2]? = some '9'
    · rw [if_pos h1]
      cases hm : matchMobile ds with
      | none => exact Or.inl rfl
      | some g =>
        obtain ⟨g1, g2, g3⟩ := g
        exact Or.inr ⟨_, _, rfl⟩
    · rw [if_neg h1]
      by_cases h2 : ds.length = 11
      · rw [if_pos h2]
        cases hm : matchLandline ds with
        | none => exact Or.inl rfl
        | some g =>
          obtain ⟨g1, g2, g3⟩ := g
          exact Or.inr ⟨_, _, rfl⟩
      · rw [if_neg h2]
        by_cases h3 : ds.length = 10
        · rw [if_pos h3]
          cases hm : matchShort ds with
          | none => exact Or.inl rfl
          | some g =>
            obtain ⟨g1, g2, g3⟩ := g
            exact Or.inr ⟨_, _, rfl⟩
        · rw [if_neg h3]
          exact Or.inl rfl

theorem validate_true_shape (p : String) (h : (validate p).1 = true) :
    ∃ tipo partes, validate p = (true, tipo, some partes) := by
  rcases validate_shape p with hf | hs
  · rw [h] at hf
    cases hf
  · exact hs

theorem cacheLoad_of_none {c : Cache} {phone : String} (now : Int)
    (h : cacheFind c (get_key phone) = none) : cacheLoad c now phone = (none, c) := by
  unfold cacheLoad
  rw [h]

theorem cacheLoad_of_fresh {c : Cache} {phone : String} {r : PhoneInfo} {now : Int}
    (h : cacheFind c (get_key phone) = some r)
    (hf : ¬now - r.consulta_ts > CACHE_TTL) : cacheLoad c now phone = (some r, c) := by
  unfold cacheLoad
  rw [h]
  simp [hf]

theorem cacheLoad_of_stale {c : Cache} {phone : String} {r : PhoneInfo} {now : Int}
    (h : cacheFind c (get_key phone) = some r)
    (hs : now - r.consulta_ts > CACHE_TTL) :
    cacheLoad c now phone = (none, cacheErase c (get_key phone)) := by
  unfold cacheLoad
  rw [h]
  simp [hs]

theorem cacheFind_save (c : Cache) (phone : String) (reg : PhoneInfo) :
    cacheFind (cacheSave c phone reg) (get_key phone) = some reg := by
  simp [cacheSave, cacheFind]

theorem lookup_hit {c c2 : Cache} {phone : String} {now : Int} {r : PhoneInfo}
    (api : Option ApiData) (h : cacheLoad c now phone = (some r, c2)) :
    lookup phone c now api = (r, c2) := by
  unfold lookup
  rw [h]

theorem lookup_miss_invalid {c c2 : Cache} {phone : String} {now : Int}
    (api : Option ApiData) (hl : cacheLoad c now phone = (none, c2))
    (hv : (validate phone).1 = false) :
    lookup phone c now api = (invalidRecord phone, c2) := by
  unfold lookup
  rw [hl]
  rcases h : validate phone with ⟨b, t, p⟩
  rw [h] at hv
  simp only at hv
  subst hv
  rfl

theorem lookup_miss_valid {c c2 : Cache} {phone tipo : String} {now : Int}
    {partes : Partes} (api : Option ApiData)
    (hl : cacheLoad c now phone = (none, c2))
    (hv : validate phone = (true, tipo, some partes)) :
    lookup phone c now api =
      (composeRecord phone tipo partes api now,
       cacheSave c2 phone (composeRecord phone tipo partes api now)) := by
  unfold lookup
  rw [hl, hv]

/-- The inner `for pref in prefixos` loop returns the carrier exactly when
some specification matches. -/
theorem scanPrefs_eq (op : String) (prefs : List String) (p : String) :
    scanPrefs op prefs p = if prefs.any (specMatches p) then some op else none := by
  induction prefs with
  | nil => rfl
  | cons a l ih =>
    by_cases h : specMatches p a
    · simp [scanPrefs, h]
    · simp [scanPrefs, h, ih]

/-- The double loop of `get_operator_by_prefixo` is first-match search over
the carrier list. -/
theorem scanOps_eq (ops : List (String × List String)) (p : String) :
    scanOps ops p = (ops.find? fun oc => oc.2.any (specMatches p)).map Prod.fst := by
  induction ops with
  | nil => rfl
  | cons a l ih =>
    obtain ⟨op, prefs⟩ := a
    by_cases h : prefs.any (specMatches p)
    · simp [scanOps, scanPrefs_eq, h, List.find?]
    · simp [scanOps, scanPrefs_eq, h, List.find?, ih]

theorem matchLandline_none {ds : List Char} (h : ds.length ≠ 10) :
    matchLandline ds = none := by
  unfold matchLandline
  exact if_neg fun hc => h hc.1

theorem matchShort_none {ds : List Char} (h : ds.length ≠ 9) :
    matchShort ds = none := by
  unfold matchShort
  exact if_neg fun hc => h hc.1

theorem isTwoToFive_ne_nine {c : Char} (h : isTwoToFive c = true) : c ≠ '9' := by
  simp only [isTwoToFive, Bool.or_eq_true, decide_eq_true_eq] at h
  rcases h with ((rfl | rfl) | rfl) | rfl <;> decide

/-! ### Claim theorems -/

/-- C7: `normalize` strips every non-digit character; if exactly 11 digits
remain and the first is `'0'` it drops that digit; it returns the resulting
digit string exactly when its length is 10 or 11, and signals invalid
(`none`) otherwise. -/
theorem C7_normalize_algorithm (s : String) :
    ((stripNonDigits s).length = 11 ∧ (stripNonDigits s).head? = some '0' →
      normalize s = some (String.mk (stripNonDigits s).tail))
    ∧ (¬((stripNonDigits s).length = 11 ∧ (stripNonDigits s).head? = some '0') →
        (10 ≤ (stripNonDigits s).length ∧ (stripNonDigits s).length ≤ 11 →
          normalize s = some (String.mk (stripNonDigits s)))
        ∧ (¬(10 ≤ (stripNonDigits s).length ∧ (stripNonDigits s).length ≤ 11) →
          normalize s = none)) := by
  refine ⟨fun h => ?_, fun h => ⟨fun h2 => ?_, fun h2 => ?_⟩⟩
  · have htail : (stripNonDigits s).tail.length = 10 := by
      rw [List.length_tail, h.1]
    unfold normalize normalizeL
    rw [trunkStrip_of_pos h]
    unfold pickRange
    rw [htail]
    norm_num
  · unfold normalize normalizeL
    rw [trunkStrip_of_neg h]
    unfold pickRange
    rw [if_pos h2]
    rfl
  · unfold normalize normalizeL
    rw [trunkStrip_of_neg h]
    unfold pickRange
    rw [if_neg h2]
    rfl

theorem C7_normalize_algorithm_witness :
    normalize "08399343732" = some "8399343732" := by
  exact ((C7_normalize_algorithm "08399343732").1 (by decide)).trans (by decide)

/-- C8 counterexample: the spec's example `normalize("083993437321") =
"83993437321"` is false on the code — the input leaves 12 digits, the
leading-zero strip fires only at exactly 11 digits, and length 12 is
rejected. -/
theorem C8_counterexample : normalize "083993437321" ≠ some "83993437321" := by
  decide

/-- C8 (amended): `normalize("083993437321")` signals invalid (12 digits
remain and the trunk strip applies only to 11-digit results), and
`normalize("123")` signals invalid (too short). -/
theorem C8_normalize_examples :
    normalize "083993437321" = none ∧ normalize "123" = none := by
  decide

/-- C10: `normalize` is idempotent on its successes, and every successful
output is all digits, of length 10 or 11, and never an 11-digit string
beginning with `'0'`. -/
theorem C10_normalize_idempotent (s out : String) (h : normalize s = some out) :
    normalize out = some out
    ∧ out.toList.all Char.isDigit = true
    ∧ (out.length = 10 ∨ out.length = 11)
    ∧ ¬(out.length = 11 ∧ out.toList.head? = some '0') := by
  unfold normalize normalizeL at h
  rcases hpr : pickRange (trunkStrip (stripNonDigits s)) with - | l
  · rw [hpr] at h
    cases h
  · rw [hpr] at h
    obtain rfl : out = String.mk l := by
      simpa using h.symm
    obtain ⟨hrange, rfl⟩ := pickRange_eq_some.mp hpr
    have hall : (trunkStrip (stripNonDigits s)).all Char.isDigit = true := by
      unfold trunkStrip
      split
      · exact all_tail (stripNonDigits_all s)
      · exact stripNonDigits_all s
    have houtlist : (String.mk (trunkStrip (stripNonDigits s))).toList
        = trunkStrip (stripNonDigits s) := rfl
    have houtlen : (String.mk (trunkStrip (stripNonDigits s))).length
        = (trunkStrip (stripNonDigits s)).length := rfl
    have hnot0 : ¬((String.mk (trunkStrip (stripNonDigits s))).length = 11
        ∧ (String.mk (trunkStrip (stripNonDigits s))).toList.head? = some '0') := by
      rintro ⟨h11, h0⟩
      rw [houtlen] at h11
      rw [houtlist] at h0
      by_cases hc : (stripNonDigits s).length = 11
          ∧ (stripNonDigits s).head? = some '0'
      · rw [trunkStrip_of_pos hc, List.length_tail, hc.1] at h11
        exact absurd h11 (by decide)
      · rw [trunkStrip_of_neg hc] at h11 h0
        exact hc ⟨h11, h0⟩
    refine ⟨?_, by rw [houtlist]; exact hall, by rw [houtlen]; omega, hnot0⟩
    unfold normalize normalizeL
    have hstr : stripNonDigits (String.mk (trunkStrip (stripNonDigits s)))
        = trunkStrip (stripNonDigits s) := by
      apply stripNonDigits_of_all
      rw [houtlist]
      exact hall
    rw [hstr]
    have hts : trunkStrip (trunkStrip (stripNonDigits s))
        = trunkStrip (stripNonDigits s) := by
      apply trunkStrip_of_neg
      rintro ⟨h11, h0⟩
      exact hnot0 ⟨by rw [houtlen]; exact h11, by rw [houtlist]; exact h0⟩
    rw [hts]
    unfold pickRange
    rw [if_pos hrange]
    rfl

theorem C10_normalize_idempotent_witness :
    normalize "(83) 99343-7321" = some "83993437321"
    ∧ normalize "83993437321" = some "83993437321" := by
  have h : normalize "(83) 99343-7321" = some "83993437321" := by decide
  exact ⟨h, (C10_normalize_idempotent _ _ h).1⟩

/-- C2: for every canonical digit string of length 11 whose digit at index 2
is `'9'`, `validate` classifies Mobile ("MÓVEL") with `ddd` the first 2
digits, `raw_prefixo` the 5-digit group at indices 2..6, `prefixo` that
group with its leading `'9'` stripped, and `sufixo` the last 4 digits.
(A canonical string never begins with `'0'` at length 11, see
`C10_normalize_idempotent`; that fact is the `h0` hypothesis.) -/
theorem C2_mobile_classification (s : String)
    (hd : s.toList.all Char.isDigit = true)
    (hlen : s.toList.length = 11)
    (h9 : s.toList[2]? = some '9')
    (h0 : s.toList.head? ≠ some '0') :
    validate s = (true, "MÓVEL",
      some ⟨String.mk (s.toList.take 2),
            String.mk (((s.toList.drop 2).take 5).drop 1),
            String.mk (s.toList.drop 7),
            some (String.mk ((s.toList.drop 2).take 5))⟩) := by
  have hnl : normalizeL s = some s.toList := by
    unfold normalizeL
    rw [stripNonDigits_of_all s hd, trunkStrip_of_neg fun hc => h0 hc.2]
    unfold pickRange
    rw [hlen]
    norm_num
  unfold validate
  rw [hnl]
  dsimp only
  rw [if_pos ⟨hlen, h9⟩]
  unfold matchMobile
  rw [if_pos ⟨hlen, hd, h9⟩]

theorem C2_mobile_classification_witness :
    validate "83993437321"
      = (true, "MÓVEL", some ⟨"83", "9343", "7321", some "99343"⟩) := by
  exact (C2_mobile_classification "83993437321" (by decide) (by decide) (by decide)
    (by decide)).trans (by decide)

/-- C1 counterexample: the claim predicts Landline classification, but on
the canonical 11-digit string "12345678901" (digit at index 2 is `'3'`,
in {2,3,4,5} and not 9) and the canonical 10-digit string "1234567890"
(digit at index 2 is `'3'`), `validate` returns invalid: the landline
pattern consumes exactly 10 characters and the short pattern exactly 9,
so neither can match in its branch. -/
theorem C1_counterexample :
    validate "12345678901" = (false, "Formato não reconhecido", none)
    ∧ validate "1234567890" = (false, "Formato não reconhecido", none) := by
  decide

/-- C1 (amended): for every canonical digit string of length 11 whose digit
at index 2 is in {2,3,4,5} (hence not 9), and for every canonical digit
string of length 10, `validate` returns invalid with reason "Formato não
reconhecido" — the 10-character landline pattern never matches an 11-digit
string and the 9-character short pattern never matches a 10-digit string,
so `validate` never classifies a landline. -/
theorem C1_landline_never_matches (s : String)
    (hd : s.toList.all Char.isDigit = true) :
    (∀ c, s.toList.length = 11 → s.toList[2]? = some c → isTwoToFive c = true →
      validate s = (false, "Formato não reconhecido", none))
    ∧ (s.toList.length = 10 →
      validate s = (false, "Formato não reconhecido", none)) := by
  constructor
  · intro c hlen h2 hc
    by_cases h0 : s.toList.head? = some '0'
    · have hl : s.toList.tail.length = 10 := by rw [List.length_tail, hlen]
      have hnl : normalizeL s = some s.toList.tail := by
        unfold normalizeL
        rw [stripNonDigits_of_all s hd, trunkStrip_of_pos ⟨hlen, h0⟩]
        unfold pickRange
        rw [hl]
        norm_num
      unfold validate
      rw [hnl]
      dsimp only
      rw [if_neg fun hcc => by have h := hcc.1; rw [hl] at h; exact absurd h (by decide)]
      rw [if_neg fun hcc => by rw [hl] at hcc; exact absurd hcc (by decide)]
      rw [if_pos hl]
      rw [matchShort_none fun h9 => by rw [hl] at h9; exact absurd h9 (by decide)]
    · have hnl : normalizeL s = some s.toList := by
        unfold normalizeL
        rw [stripNonDigits_of_all s hd, trunkStrip_of_neg fun hcc => h0 hcc.2]
        unfold pickRange
        rw [hlen]
        norm_num
      unfold validate
      rw [hnl]
      dsimp only
      rw [if_neg fun hcc => by
        have h := hcc.2
        rw [h2] at h
        exact isTwoToFive_ne_nine hc (Option.some.inj h)]
      rw [if_pos hlen]
      rw [matchLandline_none fun h10 => by rw [hlen] at h10; exact absurd h10 (by decide)]
  · intro hlen
    have hnl : normalizeL s = some s.toList := by
      unfold normalizeL
      rw [stripNonDigits_of_all s hd,
        trunkStrip_of_neg fun hcc => by rw [hlen] at hcc; exact absurd hcc.1 (by decide)]
      unfold pickRange
      rw [hlen]
      norm_num
    unfold validate
    rw [hnl]
    dsimp only
    rw [if_neg fun hcc => by have h := hcc.1; rw [hlen] at h; exact absurd h (by decide)]
    rw [if_neg fun hcc => by rw [hlen] at hcc; exact absurd hcc (by decide)]
    rw [if_pos hlen]
    rw [matchShort_none fun h9 => by rw [hlen] at h9; exact absurd h9 (by decide)]

theorem C1_landline_never_matches_witness :
    validate "83345678901" = (false, "Formato não reconhecido", none)
    ∧ validate "8332345678" = (false, "Formato não reconhecido", none) := by
  exact ⟨(C1_landline_never_matches "83345678901" (by decide)).1 '3' (by decide)
      (by decide) (by decide),
    (C1_landline_never_matches "8332345678" (by decide)).2 (by decide)⟩

/-- Modelled from the words of claim C6: carrier resolution returns
"Desconhecida" (Unknown) when the kind is not Mobile, or the area code is
absent from the static table, or the family keyed by the first character
of the raw prefix is absent; otherwise it returns the first carrier, in
table-defined order, one of whose prefix specifications matches (exact
specs by `startswith`, range specs `lo-hi` by comparing the integer value
of the raw prefix's first two digits — the shared matcher `specMatches`
is the code's own loop-body test, which coincides with the claim's
description of the two spec forms), and "Desconhecida" when no
specification matches. -/
def claimResolve (areaCode rawPrefixo kind : String) : String :=
  if kind ≠ "MÓVEL" then "Desconhecida"
  else
    match assoc areaCode OPERATOR_PREFIXES with
    | none => "Desconhecida"
    | some families =>
      match assoc (rawPrefixo.take 1) families with
      | none => "Desconhecida"
      | some carriers =>
        match (carriers.find? fun oc => oc.2.any (specMatches rawPrefixo)).map
            Prod.fst with
        | some op => op
        | none => "Desconhecida"

/-- C6: `get_operator_by_prefixo` behaves exactly as claim C6 describes —
"Desconhecida" whenever the kind is not Mobile, the area code is
untabulated, or the prefix family is untabulated; otherwise first-match
search over carriers in table order, with "Desconhecida" when no prefix
specification matches. -/
theorem C6_operator_resolution (ddd prefixo tipo : String) :
    get_operator_by_prefixo ddd prefixo tipo = claimResolve ddd prefixo tipo := by
  unfold get_operator_by_prefixo claimResolve
  by_cases ht : tipo = "MÓVEL"
  · rw [if_neg (by simpa using ht)]
    cases assoc ddd OPERATOR_PREFIXES with
    | none => rfl
    | some families =>
      dsimp only
      rw [if_pos ht]
      cases assoc (prefixo.take 1) families with
      | none => rfl
      | some carriers =>
        dsimp only
        rw [scanOps_eq]
  · rw [if_pos (by simpa using ht)]
    cases assoc ddd OPERATOR_PREFIXES with
    | none => rfl
    | some families =>
      dsimp only
      rw [if_neg ht]

/-- C3 counterexample: for the canonical number "1234567890" (which fails
validation, as every 10-digit canonical does), the first `lookup` stores
nothing, so the second call cannot hit the cache as the claim asserts for
every canonical number — the cache is still empty and a fresh load misses.
(Both calls still return bit-identical records; only the claimed cache-hit
mechanism is false.) -/
theorem C3_counterexample :
    (lookup "1234567890" [] 0 none).2 = []
    ∧ (cacheLoad ((lookup "1234567890" [] 0 none).2) 1 "1234567890").1 = none
    ∧ (lookup "1234567890" [] 0 none).1.valido = false :=
  ⟨rfl, rfl, rfl⟩

/-- C3 (amended): two `lookup` calls for the same number within the TTL
window (no clearing in between, starting from a cache with no entry for
that number) return bit-identical records, including `consulta_ts`; for
numbers that validate, the second call is served from the cache entry
written by the first, while invalid numbers are recomputed to the same
record (they are never cached). -/
theorem C3_lookup_idempotent (phone : String) (c : Cache) (t1 t2 : Int)
    (api1 api2 : Option ApiData)
    (hm : cacheFind c (get_key phone) = none)
    (h12 : t1 ≤ t2) (httl : t2 - t1 ≤ CACHE_TTL) :
    (lookup phone (lookup phone c t1 api1).2 t2 api2).1
      = (lookup phone c t1 api1).1 := by
  have hl1 : cacheLoad c t1 phone = (none, c) := cacheLoad_of_none t1 hm
  rcases validate_shape phone with hf | ⟨tipo, partes, hv⟩
  · rw [lookup_miss_invalid api1 hl1 hf]
    dsimp only
    rw [lookup_miss_invalid api2 (cacheLoad_of_none t2 hm) hf]
  · rw [lookup_miss_valid api1 hl1 hv]
    dsimp only
    have hfind := cacheFind_save c phone (composeRecord phone tipo partes api1 t1)
    have hts : (composeRecord phone tipo partes api1 t1).consulta_ts = t1 := rfl
    have hfresh :
        ¬t2 - (composeRecord phone tipo partes api1 t1).consulta_ts > CACHE_TTL := by
      rw [hts]
      exact not_lt.mpr httl
    rw [lookup_hit api2 (cacheLoad_of_fresh hfind hfresh)]

theorem C3_lookup_idempotent_witness :
    (lookup "83993437321" (lookup "83993437321" [] 1000 none).2 2000 none).1
      = (lookup "83993437321" [] 1000 none).1 :=
  C3_lookup_idempotent "83993437321" [] 1000 2000 none none rfl (by decide) (by decide)

/-- C4: when validation fails (and the cache holds no entry for the raw
input, the only state reachable for such inputs since invalid records are
never saved), `lookup` returns the invalid record — `valido = false`,
`tipo = "INVÁLIDO"`, empty `ddd`/`prefixo`/`sufixo` — raises nothing
(total function), and leaves the cache exactly as it was. -/
theorem C4_invalid_atomicity (phone : String) (c : Cache) (now : Int)
    (api : Option ApiData)
    (hm : cacheFind c (get_key phone) = none)
    (hv : (validate phone).1 = false) :
    lookup phone c now api = (invalidRecord phone, c)
    ∧ (invalidRecord phone).valido = false
    ∧ (invalidRecord phone).tipo = "INVÁLIDO"
    ∧ (invalidRecord phone).ddd = ""
    ∧ (invalidRecord phone).prefixo = ""
    ∧ (invalidRecord phone).sufixo = "" :=
  ⟨lookup_miss_invalid api (cacheLoad_of_none now hm) hv, rfl, rfl, rfl, rfl, rfl⟩

theorem C4_invalid_atomicity_witness :
    lookup "123" [] 5 none = (invalidRecord "123", [])
    ∧ (invalidRecord "123").valido = false
    ∧ (invalidRecord "123").tipo = "INVÁLIDO"
    ∧ (invalidRecord "123").ddd = ""
    ∧ (invalidRecord "123").prefixo = ""
    ∧ (invalidRecord "123").sufixo = "" :=
  C4_invalid_atomicity "123" [] 5 none rfl (by decide)

/-- An arbitrary stored record used to exhibit lazy expiry (its
`consulta_ts` is the dataclass default 0). -/
def staleRecord : PhoneInfo :=
  { numero := "stale", ddd := "", prefixo := "", sufixo := "" }

/-- C5: `CacheManager.load` misses when no entry exists; when the entry is
older than `CACHE_TTL` (86400 s) it deletes the entry and misses (lazy
expiry); and a `lookup` performed more than 86400 s after the cached
record's `consulta_ts` recomputes a fresh valid record whose
`consulta_ts` is the current clock instead of replaying the stale entry. -/
theorem C5_ttl_expiry (c : Cache) (now : Int) (phone : String) (r : PhoneInfo)
    (api : Option ApiData) :
    (cacheFind c (get_key phone) = none → cacheLoad c now phone = (none, c))
    ∧ (cacheFind c (get_key phone) = some r → now - r.consulta_ts > CACHE_TTL →
        cacheLoad c now phone = (none, cacheErase c (get_key phone)))
    ∧ (cacheFind c (get_key phone) = some r → now - r.consulta_ts > CACHE_TTL →
        (validate phone).1 = true →
        (lookup phone c now api).1.consulta_ts = now
        ∧ (lookup phone c now api).1.valido = true) := by
  refine ⟨fun h => cacheLoad_of_none now h, fun h hs => cacheLoad_of_stale h hs,
    fun h hs hv => ?_⟩
  obtain ⟨tipo, partes, hv2⟩ := validate_true_shape phone hv
  rw [lookup_miss_valid api (cacheLoad_of_stale h hs) hv2]
  exact ⟨rfl, rfl⟩

theorem C5_ttl_expiry_witness :
    (lookup "83993437321" [(get_key "83993437321", staleRecord)] 100000
        none).1.consulta_ts = 100000
    ∧ (lookup "83993437321" [(get_key "83993437321", staleRecord)] 100000
        none).1.valido = true := by
  refine (C5_ttl_expiry [(get_key "83993437321", staleRecord)] 100000 "83993437321"
    staleRecord none).2.2 ?_ (by decide) (by decide)
  simp [cacheFind]

set_option maxRecDepth 100000 in
/-- C9: `lookup` keys the cache by the MD5 hash of its argument exactly as
passed (the write goes to key `get_key phone`) and stores the argument
verbatim in the record's `numero` field, with no normalization; the two
spellings "83993437321" and "(83) 99343-7321" of the same canonical number
therefore use distinct cache keys and carry distinct `numero` fields. -/
theorem C9_raw_cache_keying (phone : String) (c : Cache) (now : Int)
    (api : Option ApiData)
    (hm : cacheFind c (get_key phone) = none)
    (hv : (validate phone).1 = true) :
    ((lookup phone c now api).1.numero = phone
      ∧ (lookup phone c now api).2
        = (get_key phone, (lookup phone c now api).1)
            :: cacheErase c (get_key phone))
    ∧ get_key "83993437321" ≠ get_key "(83) 99343-7321" := by
  obtain ⟨tipo, partes, hv2⟩ := validate_true_shape phone hv
  rw [lookup_miss_valid api (cacheLoad_of_none now hm) hv2]
  exact ⟨⟨rfl, rfl⟩, by decide⟩

theorem C9_raw_cache_keying_witness :
    (lookup "(83) 99343-7321" [] 0 none).1.numero = "(83) 99343-7321"
    ∧ get_key "83993437321" ≠ get_key "(83) 99343-7321" := by
  have h := C9_raw_cache_keying "(83) 99343-7321" [] 0 none rfl (by decide)
  exact ⟨h.1.1, h.2⟩

end Tel
